import Mathlib

/-!
Shallow embedding of the mouse-ring firmware control loop (src/code.py).

The embedding covers: the battery percent table (get_batt_percent), the
battery LED signalling (battery_leds), the Connected-loop housekeeping
dispatch over the blink counter and the LED auto-off deadline, the
debounced button dispatch with scroll acceleration, and the outer
advertising phase of the main loop.

Modelling conventions:
- CircuitPython floats are modelled as rationals; monotonic time is a
  rational number of nanoseconds.
- A Python UnboundLocalError is modelled by Option: a function that can
  raise on some inputs returns none exactly on those inputs.
- LEDs are active low, as in the source: value false means the LED is lit.
- One tick of the Connected inner loop takes the sampled button values,
  the battery sample and the current monotonic time as inputs.
-/

namespace MouseRing

/-- Static configuration, from the config dict in src/code.py (lines 24-35).
Only the fields the control loop reads are modelled; pins and names are
consumed by collaborators. -/
structure Config where
  blink_interval : ℤ
  debounce_sleep : ℚ
  sp_initial : ℚ
  sp_accel : ℚ
  sp_max : ℚ
deriving DecidableEq, Repr

/-- The defaults of src/code.py lines 24-35; left_config.py and
right_config.py override only pins and the advertised name. -/
def defaultConfig : Config :=
  { blink_interval := 20000
    debounce_sleep := 0.15
    sp_initial := 0.2
    sp_accel := 0.015
    sp_max := 0.01 }

/-- get_delay_time (src/code.py lines 46-47):
time.monotonic_ns() + seconds * 10**9. -/
def get_delay_time (now seconds : ℚ) : ℚ := now + seconds * 10 ^ 9

/-- The voltage-to-percent table of get_batt_percent (lines 151-163),
listed in the order produced by sorted(batt_table.keys(), reverse=True). -/
def batt_table : List (ℚ × ℕ) :=
  [(4.2, 100), (4.13, 90), (4.06, 80), (3.99, 70), (3.92, 60), (3.85, 50),
   (3.78, 40), (3.71, 30), (3.64, 20), (3.57, 10), (3.5, 0)]

/-- The loop of get_batt_percent (lines 164-172): walk the keys in
descending order, skip while volts < key, return the first bucket whose
key is at or below volts.  If every key exceeds volts the Python local
percent is never assigned and the return raises UnboundLocalError,
modelled as none. -/
def lookupPercent (volts : ℚ) : List (ℚ × ℕ) → Option ℕ
  | [] => none
  | (k, v) :: rest => if volts < k then lookupPercent volts rest else some v

/-- get_batt_percent (src/code.py lines 148-173). -/
def get_batt_percent (volts : ℚ) : Option ℕ := lookupPercent volts batt_table

/-- The three status LEDs.  Values are the raw digital outputs of
src/code.py: the LEDs are active low, so a field equal to false means
that LED is lit. -/
structure Leds where
  blue : Bool
  green : Bool
  red : Bool
deriving DecidableEq, Repr

/-- leds_off (src/code.py lines 197-200): all three outputs high
(every LED unlit). -/
def ledsAllOff : Leds := { blue := true, green := true, red := true }

/-- One on-demand battery reading: voltage and charge-in-progress flag. -/
structure BattSample where
  voltage : ℚ
  charge_status : Bool
deriving DecidableEq, Repr

/-- battery_leds (src/code.py lines 175-193).  The percent is computed
from the voltage before the charge status is examined, so a voltage below
every table key raises (none) even while charging.  The function only
turns LEDs on, starting from whatever LED state is current. -/
def battery_leds (batt : BattSample) (leds : Leds) : Option Leds :=
  match get_batt_percent batt.voltage with
  | none => none
  | some percent =>
    if batt.charge_status then some { leds with green := false }
    else if percent > 79 then some { leds with green := false }
    else if percent > 29 then some { leds with green := false, red := false }
    else some { leds with red := false }

/-- The raw digital values of the four button inputs for one tick.
Pull-up idle-high: a field equal to false means the button is pressed. -/
structure Inputs where
  left_val : Bool
  right_val : Bool
  scrollup_val : Bool
  scrolldown_val : Bool
deriving DecidableEq, Repr

/-- The mutable state of the Connected inner loop: the two deadline
globals LEDOFF_TIME and DEBOUNCE_TIME (lines 44-45), the blink counter i
(line 141), the scroll interval scroll_sleep (line 142) and the LED
outputs. -/
structure RingState where
  LEDOFF_TIME : Option ℚ
  DEBOUNCE_TIME : Option ℚ
  i : ℤ
  scroll_sleep : ℚ
  leds : Leds
deriving DecidableEq, Repr

/-- The state the program enters the main loop with: no pending deadlines,
i = -1, scroll_sleep = sp_initial, all LEDs off (lines 44-45, 103-105,
141-142). -/
def initialState (cfg : Config) : RingState :=
  { LEDOFF_TIME := none
    DEBOUNCE_TIME := none
    i := -1
    scroll_sleep := cfg.sp_initial
    leds := ledsAllOff }

/-- The guard LEDOFF_TIME is not None and LEDOFF_TIME < time.monotonic_ns()
(line 233): the auto-off deadline fires only when strictly in the past. -/
def ledoffDue (now : ℚ) : Option ℚ → Bool
  | none => false
  | some t => decide (t < now)

/-- The guard DEBOUNCE_TIME is not None and DEBOUNCE_TIME > time.monotonic_ns()
(lines 242, 253, 264, 275), shared verbatim by all four button branches. -/
def debounceSuppressed (now : ℚ) : Option ℚ → Bool
  | none => false
  | some t => decide (now < t)

/-- The branch selection of the housekeeping dispatch (lines 224-237),
before the unconditional i = i+1.  Exactly one branch of the if/elif
chain runs: blink blue, show battery, debug log (a no-op on state), clear
an expired auto-off deadline, or nothing. -/
def housekeeping_step (cfg : Config) (now : ℚ) (batt : BattSample)
    (s : RingState) : Option RingState :=
  if s.i = cfg.blink_interval * 2 then
    some { s with leds := { s.leds with blue := false }
                  LEDOFF_TIME := some (get_delay_time now 0.1)
                  i := -1 }
  else if s.i = cfg.blink_interval then
    match battery_leds batt s.leds with
    | none => none
    | some l => some { s with leds := l
                              LEDOFF_TIME := some (get_delay_time now 0.1) }
  else if s.i % 1000 = 0 then
    some s
  else if ledoffDue now s.LEDOFF_TIME then
    some { s with LEDOFF_TIME := none, leds := ledsAllOff }
  else
    some s

/-- The housekeeping dispatch of one tick (lines 224-238), including the
trailing i = i+1. -/
def housekeeping (cfg : Config) (now : ℚ) (batt : BattSample)
    (s : RingState) : Option RingState :=
  match housekeeping_step cfg now batt s with
  | none => none
  | some s1 => some { s1 with i := s1.i + 1 }

/-- The two HID mouse buttons the device reports. -/
inductive MouseBtn
  | left
  | right
deriving DecidableEq, Repr

/-- HID reports emitted by one tick: press and release of a mouse button
and relative wheel moves. -/
inductive HidEvent
  | press (b : MouseBtn)
  | release (b : MouseBtn)
  | wheelMove (delta : ℤ)
deriving DecidableEq, Repr

/-- Lines 267-269 of the scroll branches: scroll_sleep -= sp_accel, then
floored at sp_max. -/
def scroll_accel_step (cfg : Config) (ss : ℚ) : ℚ :=
  if ss - cfg.sp_accel < cfg.sp_max then cfg.sp_max else ss - cfg.sp_accel

/-- The button dispatch of one tick (src/code.py lines 241-288).  Output:
the new state, the HID reports of the tick, and whether the scroll_sleep
reset message was logged this tick.  A continue in the source ends the
tick with no HID output.  A click branch presses, spin-waits for release
within the same action, then releases, so it contributes a press and a
release.  Each scroll branch assigns DEBOUNCE_TIME twice, as the source
does; only the second assignment (made after the decrement) survives. -/
def handle_buttons (cfg : Config) (inp : Inputs) (now : ℚ)
    (s : RingState) : RingState × List HidEvent × Bool :=
  if inp.left_val = false then
    if debounceSuppressed now s.DEBOUNCE_TIME then (s, [], false)
    else ({ s with DEBOUNCE_TIME := some (get_delay_time now cfg.debounce_sleep) },
          [HidEvent.press MouseBtn.left, HidEvent.release MouseBtn.left], false)
  else if inp.right_val = false then
    if debounceSuppressed now s.DEBOUNCE_TIME then (s, [], false)
    else ({ s with DEBOUNCE_TIME := some (get_delay_time now cfg.debounce_sleep) },
          [HidEvent.press MouseBtn.right, HidEvent.release MouseBtn.right], false)
  else if inp.scrollup_val = false then
    if debounceSuppressed now s.DEBOUNCE_TIME then (s, [], false)
    else
      let _first_rearm := get_delay_time now s.scroll_sleep
      let ss1 := scroll_accel_step cfg s.scroll_sleep
      ({ s with DEBOUNCE_TIME := some (get_delay_time now ss1), scroll_sleep := ss1 },
       [HidEvent.wheelMove 1], false)
  else if inp.scrolldown_val = false then
    if debounceSuppressed now s.DEBOUNCE_TIME then (s, [], false)
    else
      let _first_rearm := get_delay_time now s.scroll_sleep
      let ss1 := scroll_accel_step cfg s.scroll_sleep
      ({ s with DEBOUNCE_TIME := some (get_delay_time now ss1), scroll_sleep := ss1 },
       [HidEvent.wheelMove (-1)], false)
  else
    if s.scroll_sleep ≠ cfg.sp_initial then
      ({ s with scroll_sleep := cfg.sp_initial }, [], true)
    else (s, [], false)

/-- One full tick of the Connected inner loop (lines 221-288):
housekeeping dispatch, then button dispatch.  none models a tick on which
get_batt_percent raised. -/
def tick (cfg : Config) (inp : Inputs) (batt : BattSample) (now : ℚ)
    (s : RingState) : Option (RingState × List HidEvent × Bool) :=
  match housekeeping cfg now batt s with
  | none => none
  | some s1 => some (handle_buttons cfg inp now s1)

/-- Run a sequence of ticks, each with its own sampled inputs, battery
reading and monotonic time. -/
def runTrace (cfg : Config) : RingState → List (Inputs × BattSample × ℚ) →
    Option RingState
  | s, [] => some s
  | s, (inp, batt, now) :: rest =>
    match tick cfg inp batt now s with
    | none => none
    | some r => runTrace cfg r.1 rest

/-- Calls the not-connected branch of the main loop makes on the radio
collaborator, plus the blocking blink of the connecting wait. -/
inductive RadioCall
  | start_advertising
  | blink_sleep
  | stop_advertising
deriving DecidableEq, Repr

/-- The inner while not ble.connected wait (lines 210-218): each false
poll blinks and sleeps; the first true poll exits the wait and
stop_advertising is called. -/
def connect_wait : List Bool → List RadioCall
  | [] => []
  | connected :: rest =>
    if connected then [RadioCall.stop_advertising]
    else RadioCall.blink_sleep :: connect_wait rest

/-- The if not ble.connected branch of the main loop (lines 207-219) on a
list of successive is_connected() polls: when the first poll reports not
connected, start_advertising is called once and the connecting wait runs
until a poll reports connected. -/
def disconnected_phase : List Bool → List RadioCall
  | [] => []
  | connected :: rest =>
    if connected then []
    else RadioCall.start_advertising :: connect_wait rest

/-- Any of the four buttons reads as pressed this tick. -/
def any_button_asserted (inp : Inputs) : Prop :=
  inp.left_val = false ∨ inp.right_val = false ∨
  inp.scrollup_val = false ∨ inp.scrolldown_val = false

instance (inp : Inputs) : Decidable (any_button_asserted inp) := by
  unfold any_button_asserted; infer_instance

/-- Fixture: a healthy mid-range battery sample, used on ticks whose
housekeeping does not reach the battery branch. -/
def battD : BattSample := { voltage := 4.0, charge_status := false }

/-- Fixture: no button pressed (all inputs idle-high). -/
def inpNone : Inputs :=
  { left_val := true, right_val := true, scrollup_val := true, scrolldown_val := true }

/-- Fixture: only the left button pressed. -/
def inpLeft : Inputs :=
  { left_val := false, right_val := true, scrollup_val := true, scrolldown_val := true }

/-- Fixture: only the scroll-up button pressed. -/
def inpUp : Inputs :=
  { left_val := true, right_val := true, scrollup_val := false, scrolldown_val := true }

/-- Sanity check: the modelled table really is in strictly descending key
order, as sorted(reverse = True) produces. -/
theorem batt_table_keys_descending :
    batt_table.Chain' (fun a b => b.1 < a.1) := by
  norm_num [batt_table, List.chain'_cons]

/-- The decrement-and-floor of the scroll branches is the max of the
decremented interval and the configured floor. -/
lemma scroll_accel_step_max (cfg : Config) (ss : ℚ) :
    scroll_accel_step cfg ss = max (ss - cfg.sp_accel) cfg.sp_max := by
  unfold scroll_accel_step
  split_ifs with h
  · exact (max_eq_right h.le).symm
  · exact (max_eq_left (not_lt.mp h)).symm

/-- N accepted scroll actions in a row take the interval from sp_initial
to max (sp_initial - N * sp_accel) sp_max. -/
lemma scroll_iterate (cfg : Config) (hm : cfg.sp_max ≤ cfg.sp_initial)
    (ha : 0 ≤ cfg.sp_accel) : ∀ N : ℕ,
    (scroll_accel_step cfg)^[N] cfg.sp_initial
      = max (cfg.sp_initial - (N : ℚ) * cfg.sp_accel) cfg.sp_max := by
  intro N
  induction N with
  | zero => simp [max_eq_left hm]
  | succ n ih =>
    rw [Function.iterate_succ_apply', ih, scroll_accel_step_max]
    rcases le_total cfg.sp_max (cfg.sp_initial - (n : ℚ) * cfg.sp_accel) with h | h
    · rw [max_eq_left h]
      congr 1
      push_cast
      ring
    · rw [max_eq_right h, max_eq_right (sub_le_self _ ha)]
      symm
      apply max_eq_right
      have hexp : cfg.sp_initial - ((n : ℚ) + 1) * cfg.sp_accel
          = (cfg.sp_initial - (n : ℚ) * cfg.sp_accel) - cfg.sp_accel := by ring
      push_cast
      rw [hexp]
      exact le_trans (sub_le_self _ ha) h

/-- The housekeeping branch selection never touches scroll_sleep or
DEBOUNCE_TIME. -/
lemma housekeeping_step_preserves (cfg : Config) (now : ℚ) (batt : BattSample)
    (s s1 : RingState) (h : housekeeping_step cfg now batt s = some s1) :
    s1.scroll_sleep = s.scroll_sleep ∧ s1.DEBOUNCE_TIME = s.DEBOUNCE_TIME := by
  unfold housekeeping_step at h
  split_ifs at h with h1 h2 h3 h4
  · injection h with h'; subst h'; exact ⟨rfl, rfl⟩
  · cases hb : battery_leds batt s.leds with
    | none => rw [hb] at h; exact Option.noConfusion h
    | some l => rw [hb] at h; injection h with h'; subst h'; exact ⟨rfl, rfl⟩
  · injection h with h'; subst h'; exact ⟨rfl, rfl⟩
  · injection h with h'; subst h'; exact ⟨rfl, rfl⟩
  · injection h with h'; subst h'; exact ⟨rfl, rfl⟩

/-- The housekeeping dispatch never touches scroll_sleep or
DEBOUNCE_TIME. -/
lemma housekeeping_preserves (cfg : Config) (now : ℚ) (batt : BattSample)
    (s s1 : RingState) (h : housekeeping cfg now batt s = some s1) :
    s1.scroll_sleep = s.scroll_sleep ∧ s1.DEBOUNCE_TIME = s.DEBOUNCE_TIME := by
  unfold housekeeping at h
  cases hs : housekeeping_step cfg now batt s with
  | none => rw [hs] at h; exact Option.noConfusion h
  | some s2 =>
    rw [hs] at h
    injection h with h'
    subst h'
    exact housekeeping_step_preserves cfg now batt s s2 hs

/-- When none of the three earlier branches of the housekeeping if/elif
chain is due and the auto-off deadline is strictly past, the tick clears
the deadline and turns the LEDs off. -/
lemma housekeeping_clear_aux (cfg : Config) (now : ℚ) (batt : BattSample)
    (s : RingState) (t : ℚ) (h1 : s.i ≠ cfg.blink_interval * 2)
    (h2 : s.i ≠ cfg.blink_interval) (h3 : s.i % 1000 ≠ 0)
    (h4 : s.LEDOFF_TIME = some t) (h5 : t < now) :
    housekeeping cfg now batt s
      = some { s with LEDOFF_TIME := none, leds := ledsAllOff, i := s.i + 1 } := by
  unfold housekeeping housekeeping_step
  rw [if_neg h1, if_neg h2, if_neg h3, h4]
  simp [ledoffDue, h5]

/-- The button dispatch keeps the scroll interval at or above the floor,
provided the initial value respects the floor. -/
lemma handle_buttons_scroll_floor (cfg : Config) (inp : Inputs) (now : ℚ)
    (s : RingState) (hm : cfg.sp_max ≤ cfg.sp_initial)
    (hs : cfg.sp_max ≤ s.scroll_sleep) :
    cfg.sp_max ≤ (handle_buttons cfg inp now s).1.scroll_sleep := by
  unfold handle_buttons
  split_ifs <;>
    first
      | exact hs
      | exact hm
      | (show cfg.sp_max ≤ scroll_accel_step cfg s.scroll_sleep
         rw [scroll_accel_step_max]
         exact le_max_right _ _)

/-- One tick keeps the scroll interval at or above the floor. -/
lemma tick_scroll_floor (cfg : Config) (inp : Inputs) (batt : BattSample)
    (now : ℚ) (s : RingState) (r : RingState × List HidEvent × Bool)
    (hm : cfg.sp_max ≤ cfg.sp_initial) (hs : cfg.sp_max ≤ s.scroll_sleep)
    (h : tick cfg inp batt now s = some r) :
    cfg.sp_max ≤ r.1.scroll_sleep := by
  unfold tick at h
  cases hh : housekeeping cfg now batt s with
  | none => rw [hh] at h; exact Option.noConfusion h
  | some s1 =>
    rw [hh] at h
    injection h with h'
    subst h'
    have hpres := (housekeeping_preserves cfg now batt s s1 hh).1
    exact handle_buttons_scroll_floor cfg inp now s1 hm (by rw [hpres]; exact hs)

/-- Any run of ticks keeps the scroll interval at or above the floor. -/
lemma runTrace_floor (cfg : Config) (hm : cfg.sp_max ≤ cfg.sp_initial) :
    ∀ (trace : List (Inputs × BattSample × ℚ)) (s s' : RingState),
      cfg.sp_max ≤ s.scroll_sleep → runTrace cfg s trace = some s' →
      cfg.sp_max ≤ s'.scroll_sleep := by
  intro trace
  induction trace with
  | nil =>
    intro s s' hs h
    unfold runTrace at h
    injection h with h'
    subst h'
    exact hs
  | cons p rest ih =>
    intro s s' hs h
    obtain ⟨inp, batt, now⟩ := p
    unfold runTrace at h
    cases ht : tick cfg inp batt now s with
    | none => rw [ht] at h; exact Option.noConfusion h
    | some r =>
      rw [ht] at h
      exact ih r.1 s' (tick_scroll_floor cfg inp batt now s r hm hs ht) h

/-- The button dispatch never sets a present debounce deadline back to
absent: it either keeps the stored value or overwrites it. -/
lemma handle_buttons_debounce_some (cfg : Config) (inp : Inputs) (now : ℚ)
    (s : RingState) (d : ℚ) (h : s.DEBOUNCE_TIME = some d) :
    ∃ d', (handle_buttons cfg inp now s).1.DEBOUNCE_TIME = some d' := by
  unfold handle_buttons
  split_ifs <;> first | exact ⟨d, h⟩ | exact ⟨_, rfl⟩

/-- Claim C1 (code bug): the claim says get_batt_percent returns 0 for
every voltage below 3.5, but at such a voltage every table key exceeds
the sample, every loop iteration continues, the local percent is never
assigned and the return raises UnboundLocalError (modelled as none). -/
theorem get_batt_percent_low_voltage_crash : get_batt_percent 3.4 = none := by
  norm_num [get_batt_percent, lookupPercent, batt_table]

/-- Claim C2 (corrected): on voltage samples [4.25, 3.6, 3.4] with
charging false, the battery-signal operation lights only the green
(link) LED for the first sample, lights only the red LED (the fault
pattern, since 3.6 V maps to 10 percent) for the second sample, and
raises on the third sample instead of producing any pattern. -/
theorem battery_signal_sequence_amended :
    battery_leds ⟨4.25, false⟩ ledsAllOff = some ⟨true, false, true⟩ ∧
    battery_leds ⟨3.6, false⟩ ledsAllOff = some ⟨true, true, false⟩ ∧
    battery_leds ⟨3.4, false⟩ ledsAllOff = none := by
  refine ⟨?_, ?_, ?_⟩ <;>
    norm_num [battery_leds, get_batt_percent, lookupPercent, batt_table, ledsAllOff]

/-- Claim C2 counterexample: the second invocation of the claimed
sequence, on the 3.6 V sample, leaves the red LED lit and the green LED
unlit, which is not the claimed link+warn pattern (green and red both
lit). -/
theorem battery_signal_sequence_cex :
    battery_leds ⟨3.6, false⟩ ledsAllOff = some ⟨true, true, false⟩ ∧
    (⟨true, true, false⟩ : Leds) ≠ ⟨true, false, false⟩ := by
  constructor
  · norm_num [battery_leds, get_batt_percent, lookupPercent, batt_table, ledsAllOff]
  · simp

/-- Claim C3 (corrected): an accepted scroll action emits exactly one
wheel move of plus or minus one, the scroll interval is decremented by
sp_accel and floored at sp_max, and the debounce deadline that survives
the tick is now plus the interval value AFTER the decrement: the source
assigns DEBOUNCE_TIME from the pre-decrement interval first but
immediately overwrites it after decrementing. -/
theorem scroll_action_effects (cfg : Config) (inp : Inputs) (now : ℚ)
    (s : RingState) (hl : inp.left_val = true) (hr : inp.right_val = true)
    (hsup : debounceSuppressed now s.DEBOUNCE_TIME = false) :
    (inp.scrollup_val = false →
      handle_buttons cfg inp now s
        = ({ s with
              DEBOUNCE_TIME :=
                some (get_delay_time now (max (s.scroll_sleep - cfg.sp_accel) cfg.sp_max))
              scroll_sleep := max (s.scroll_sleep - cfg.sp_accel) cfg.sp_max },
           [HidEvent.wheelMove 1], false)) ∧
    (inp.scrollup_val = true → inp.scrolldown_val = false →
      handle_buttons cfg inp now s
        = ({ s with
              DEBOUNCE_TIME :=
                some (get_delay_time now (max (s.scroll_sleep - cfg.sp_accel) cfg.sp_max))
              scroll_sleep := max (s.scroll_sleep - cfg.sp_accel) cfg.sp_max },
           [HidEvent.wheelMove (-1)], false)) := by
  constructor
  · intro hu
    simp [handle_buttons, hl, hr, hu, hsup, scroll_accel_step_max]
  · intro hu hd
    simp [handle_buttons, hl, hr, hu, hd, hsup, scroll_accel_step_max]

/-- Claim C3 witness: with the default configuration, a fresh state and
a scroll-up press at time 0, the theorem yields the post-decrement
re-arm. -/
theorem scroll_action_effects_witness :
    inpUp.left_val = true ∧ inpUp.right_val = true ∧
    debounceSuppressed 0 (⟨none, none, 7, 0.2, ledsAllOff⟩ : RingState).DEBOUNCE_TIME
      = false ∧
    inpUp.scrollup_val = false ∧
    handle_buttons defaultConfig inpUp 0 ⟨none, none, 7, 0.2, ledsAllOff⟩
      = (⟨none,
          some (get_delay_time 0
            (max ((0.2 : ℚ) - defaultConfig.sp_accel) defaultConfig.sp_max)),
          7, max ((0.2 : ℚ) - defaultConfig.sp_accel) defaultConfig.sp_max,
          ledsAllOff⟩,
         [HidEvent.wheelMove 1], false) :=
  ⟨rfl, rfl, rfl, rfl,
    (scroll_action_effects defaultConfig inpUp 0 ⟨none, none, 7, 0.2, ledsAllOff⟩
      rfl rfl rfl).1 rfl⟩

/-- Claim C3 counterexample: at time 0 from a fresh state with
scroll_sleep = 0.2, the accepted scroll-up action leaves
DEBOUNCE_TIME = 185000000 ns (0 + the decremented 0.185 s), not
0 + 0.2 * 10^9 = 200000000 ns as the claim (re-arm BEFORE the
decrement) requires. -/
theorem scroll_rearm_cex :
    (handle_buttons defaultConfig inpUp 0
        ⟨none, none, 7, 0.2, ledsAllOff⟩).1.DEBOUNCE_TIME = some 185000000 ∧
    get_delay_time 0 (0.2 : ℚ) = 200000000 ∧
    (185000000 : ℚ) ≠ 200000000 := by
  refine ⟨?_, ?_, by norm_num⟩ <;>
    norm_num [handle_buttons, debounceSuppressed, scroll_accel_step,
      get_delay_time, defaultConfig, inpUp]

/-- Claim C4 (corrected): when the blink branch, the battery branch and
the debug-log branch (tick counter divisible by 1000) are all not due and
the auto-off deadline is strictly past, the housekeeping dispatch clears
the deadline and turns all LEDs off on that tick, leaving the rest of the
state unchanged apart from the counter increment. -/
theorem housekeeping_clear_branch (cfg : Config) (now : ℚ) (batt : BattSample)
    (s : RingState) (t : ℚ) (h1 : s.i ≠ cfg.blink_interval * 2)
    (h2 : s.i ≠ cfg.blink_interval) (h3 : s.i % 1000 ≠ 0)
    (h4 : s.LEDOFF_TIME = some t) (h5 : t < now) :
    housekeeping cfg now batt s
      = some { s with LEDOFF_TIME := none, leds := ledsAllOff, i := s.i + 1 } :=
  housekeeping_clear_aux cfg now batt s t h1 h2 h3 h4 h5

/-- Claim C4 witness: a concrete expired deadline on a boring tick is
cleared. -/
theorem housekeeping_clear_branch_witness :
    ((7 : ℤ) ≠ defaultConfig.blink_interval * 2) ∧
    ((7 : ℤ) ≠ defaultConfig.blink_interval) ∧ ((7 : ℤ) % 1000 ≠ 0) ∧
    ((5 : ℚ) < 10) ∧
    housekeeping defaultConfig 10 battD ⟨some 5, none, 7, 0.2, ledsAllOff⟩
      = some ⟨none, none, 7 + 1, 0.2, ledsAllOff⟩ :=
  ⟨by norm_num [defaultConfig], by norm_num [defaultConfig], by norm_num,
   by norm_num,
   housekeeping_clear_branch defaultConfig 10 battD
     ⟨some 5, none, 7, 0.2, ledsAllOff⟩ 5 (by norm_num [defaultConfig])
     (by norm_num [defaultConfig]) (by norm_num) rfl (by norm_num)⟩

/-- Claim C4 counterexample: two ticks on which now is at or past the
auto-off deadline and neither the blink branch nor the battery branch is
due, yet the deadline is not cleared: first, a tick whose counter is
divisible by 1000, where the debug-log branch preempts the clear; second,
a tick where now equals the deadline exactly, which the strict comparison
LEDOFF_TIME < now does not clear. -/
theorem housekeeping_clear_cex :
    (housekeeping defaultConfig 10 battD ⟨some 5, none, 1000, 0.2, ledsAllOff⟩
        = some ⟨some 5, none, 1001, 0.2, ledsAllOff⟩ ∧
      (5 : ℚ) ≤ 10 ∧ (1000 : ℤ) ≠ defaultConfig.blink_interval * 2 ∧
      (1000 : ℤ) ≠ defaultConfig.blink_interval) ∧
    (housekeeping defaultConfig 10 battD ⟨some 10, none, 7, 0.2, ledsAllOff⟩
        = some ⟨some 10, none, 8, 0.2, ledsAllOff⟩ ∧ (10 : ℚ) ≤ 10) := by
  refine ⟨⟨?_, by norm_num, by norm_num [defaultConfig], by norm_num [defaultConfig]⟩,
          ⟨?_, le_refl _⟩⟩ <;>
    norm_num [housekeeping, housekeeping_step, defaultConfig, ledoffDue]

/-- Claim C5 (corrected): the reset branch runs only on ticks where no
button at all reads as pressed; on such a tick, if the scroll interval
differs from sp_initial it is reset to sp_initial and the reset is logged
exactly once, and if it already equals sp_initial the state is unchanged
and nothing is logged. -/
theorem idle_tick_reset (cfg : Config) (inp : Inputs) (now : ℚ)
    (s : RingState) (hl : inp.left_val = true) (hr : inp.right_val = true)
    (hu : inp.scrollup_val = true) (hd : inp.scrolldown_val = true) :
    (s.scroll_sleep ≠ cfg.sp_initial →
      handle_buttons cfg inp now s
        = ({ s with scroll_sleep := cfg.sp_initial }, [], true)) ∧
    (s.scroll_sleep = cfg.sp_initial →
      handle_buttons cfg inp now s = (s, [], false)) := by
  constructor <;> intro h <;> simp [handle_buttons, hl, hr, hu, hd, h]

/-- Claim C5 witness: a drifted interval on an all-idle tick is reset and
logged. -/
theorem idle_tick_reset_witness :
    inpNone.left_val = true ∧ inpNone.right_val = true ∧
    inpNone.scrollup_val = true ∧ inpNone.scrolldown_val = true ∧
    ((0.5 : ℚ) ≠ defaultConfig.sp_initial) ∧
    handle_buttons defaultConfig inpNone 0 ⟨none, none, 7, 0.5, ledsAllOff⟩
      = (⟨none, none, 7, defaultConfig.sp_initial, ledsAllOff⟩, [], true) :=
  ⟨rfl, rfl, rfl, rfl, by norm_num [defaultConfig],
    (idle_tick_reset defaultConfig inpNone 0 ⟨none, none, 7, 0.5, ledsAllOff⟩
      rfl rfl rfl rfl).1 (by norm_num [defaultConfig])⟩

/-- Claim C5 counterexample: a tick with the left button held while the
debounce window is still open and the scroll interval away from
sp_initial: no scroll button is asserted, yet the interval is not reset
and nothing is logged, because the left branch continues out of the
dispatch before the reset branch is reached. -/
theorem idle_tick_reset_cex :
    handle_buttons defaultConfig inpLeft 0 ⟨none, some 100, 7, 0.5, ledsAllOff⟩
      = (⟨none, some 100, 7, 0.5, ledsAllOff⟩, [], false) ∧
    ((0.5 : ℚ) ≠ defaultConfig.sp_initial) ∧
    inpLeft.scrollup_val = true ∧ inpLeft.scrolldown_val = true := by
  refine ⟨?_, by norm_num [defaultConfig], rfl, rfl⟩
  norm_num [handle_buttons, debounceSuppressed, inpLeft]

/-- Claim C6 (confirmed): the four button branches share one debounce
deadline and each checks it before acting, so with a stored deadline of
t + w * 10^9 (armed by get_delay_time at time t with window w), a tick at
any time before the deadline emits no HID event at all, whatever buttons
are pressed, and a tick at or past the deadline with some button pressed
emits an HID event. -/
theorem debounce_gates_dispatch (cfg : Config) (inp : Inputs) (t w now : ℚ)
    (s : RingState) (hdeb : s.DEBOUNCE_TIME = some (get_delay_time t w)) :
    (now < get_delay_time t w → (handle_buttons cfg inp now s).2.1 = []) ∧
    (get_delay_time t w ≤ now → any_button_asserted inp →
      (handle_buttons cfg inp now s).2.1 ≠ []) := by
  constructor
  · intro hlt
    have hsup : debounceSuppressed now s.DEBOUNCE_TIME = true := by
      rw [hdeb]
      simp only [debounceSuppressed, decide_eq_true_eq]
      exact hlt
    by_cases hl : inp.left_val = false
    · simp [handle_buttons, hl, hsup]
    · by_cases hr : inp.right_val = false
      · simp [handle_buttons, hl, hr, hsup]
      · by_cases hu : inp.scrollup_val = false
        · simp [handle_buttons, hl, hr, hu, hsup]
        · by_cases hd : inp.scrolldown_val = false
          · simp [handle_buttons, hl, hr, hu, hd, hsup]
          · rcases eq_or_ne s.scroll_sleep cfg.sp_initial with he | he <;>
              simp [handle_buttons, hl, hr, hu, hd, he]
  · intro hge hb
    have hsup : debounceSuppressed now s.DEBOUNCE_TIME = false := by
      rw [hdeb]
      simp only [debounceSuppressed, decide_eq_false_iff_not, not_lt]
      exact hge
    by_cases hl : inp.left_val = false
    · simp [handle_buttons, hl, hsup]
    · by_cases hr : inp.right_val = false
      · simp [handle_buttons, hl, hr, hsup]
      · by_cases hu : inp.scrollup_val = false
        · simp [handle_buttons, hl, hr, hu, hsup]
        · by_cases hd : inp.scrolldown_val = false
          · simp [handle_buttons, hl, hr, hu, hd, hsup]
          · rcases hb with h | h | h | h <;> simp_all [any_button_asserted]

/-- Claim C6 witness: with a deadline armed at time 0 for a 0.15 s
window, a left press at time 5 ns is suppressed and a left press at time
200000000 ns (past the window) is acted on. -/
theorem debounce_gates_dispatch_witness :
    ((5 : ℚ) < get_delay_time 0 0.15 ∧
      (handle_buttons defaultConfig inpLeft 5
        ⟨none, some (get_delay_time 0 0.15), 7, 0.2, ledsAllOff⟩).2.1 = []) ∧
    (get_delay_time 0 0.15 ≤ (200000000 : ℚ) ∧ any_button_asserted inpLeft ∧
      (handle_buttons defaultConfig inpLeft 200000000
        ⟨none, some (get_delay_time 0 0.15), 7, 0.2, ledsAllOff⟩).2.1 ≠ []) :=
  ⟨⟨by norm_num [get_delay_time],
    (debounce_gates_dispatch defaultConfig inpLeft 0 0.15 5
      ⟨none, some (get_delay_time 0 0.15), 7, 0.2, ledsAllOff⟩ rfl).1
      (by norm_num [get_delay_time])⟩,
   ⟨by norm_num [get_delay_time], Or.inl rfl,
    (debounce_gates_dispatch defaultConfig inpLeft 0 0.15 200000000
      ⟨none, some (get_delay_time 0 0.15), 7, 0.2, ledsAllOff⟩ rfl).2
      (by norm_num [get_delay_time]) (Or.inl rfl)⟩⟩

/-- Claim C7 (code bug): the claim says every battery sample yields one
of the three documented LED patterns, with charging taking priority, but
battery_leds computes the percent from the voltage before looking at the
charge flag, so a sample at 3.4 V raises (no pattern at all) even while
charging. -/
theorem battery_leds_charging_crash :
    battery_leds ⟨3.4, true⟩ ledsAllOff = none := by
  norm_num [battery_leds, get_batt_percent, lookupPercent, batt_table]

/-- Claim C8 (confirmed): starting from sp_initial, N consecutive
accepted scroll actions leave the interval at
max (sp_initial - N * sp_accel) sp_max, and every state reachable from
the loop entry state keeps the interval at or above sp_max, under the
configuration sanity conditions sp_max ≤ sp_initial and 0 ≤ sp_accel
(satisfied by the shipped configuration). -/
theorem scroll_accel_formula_and_floor (cfg : Config) (N : ℕ)
    (trace : List (Inputs × BattSample × ℚ)) (s' : RingState)
    (hm : cfg.sp_max ≤ cfg.sp_initial) (ha : 0 ≤ cfg.sp_accel) :
    (scroll_accel_step cfg)^[N] cfg.sp_initial
        = max (cfg.sp_initial - (N : ℚ) * cfg.sp_accel) cfg.sp_max ∧
    (runTrace cfg (initialState cfg) trace = some s' →
      cfg.sp_max ≤ s'.scroll_sleep) := by
  refine ⟨scroll_iterate cfg hm ha N, fun h => ?_⟩
  exact runTrace_floor cfg hm trace (initialState cfg) s' hm h

/-- Claim C8 witness: with the default configuration, two accepted scroll
actions give max (0.2 - 2 * 0.015) 0.01 and one idle tick from the entry
state ends at or above the floor. -/
theorem scroll_accel_formula_and_floor_witness :
    defaultConfig.sp_max ≤ defaultConfig.sp_initial ∧
    (0 : ℚ) ≤ defaultConfig.sp_accel ∧
    (scroll_accel_step defaultConfig)^[2] defaultConfig.sp_initial
        = max (defaultConfig.sp_initial - ((2 : ℕ) : ℚ) * defaultConfig.sp_accel)
            defaultConfig.sp_max ∧
    defaultConfig.sp_max
      ≤ (⟨none, none, 0, 0.2, ledsAllOff⟩ : RingState).scroll_sleep := by
  have h := scroll_accel_formula_and_floor defaultConfig 2 [(inpNone, battD, 0)]
    ⟨none, none, 0, 0.2, ledsAllOff⟩ (by norm_num [defaultConfig])
    (by norm_num [defaultConfig])
  refine ⟨by norm_num [defaultConfig], by norm_num [defaultConfig], h.1, h.2 ?_⟩
  norm_num [runTrace, tick, housekeeping, housekeeping_step, handle_buttons,
    defaultConfig, initialState, ledoffDue, debounceSuppressed, inpNone, ledsAllOff]

/-- Claim C9 (confirmed): entering the not-connected branch calls
start_advertising exactly once, however many polls report not connected,
and stop_advertising is called exactly once, upon the first poll that
reports connected; start always precedes stop (it is the head of the call
trace).  The concrete three-ticks-then-connected scenario is included. -/
theorem advertising_once_per_disconnect :
    disconnected_phase [false, false, false, true]
        = [RadioCall.start_advertising, RadioCall.blink_sleep,
           RadioCall.blink_sleep, RadioCall.stop_advertising] ∧
    ∀ rest : List Bool,
      (disconnected_phase (false :: rest)).count RadioCall.start_advertising = 1 ∧
      (disconnected_phase (false :: rest)).count RadioCall.stop_advertising
          = (if true ∈ rest then 1 else 0) ∧
      (disconnected_phase (false :: rest)).head?
          = some RadioCall.start_advertising := by
  refine ⟨by norm_num [disconnected_phase, connect_wait], ?_⟩
  intro rest
  have hphase : disconnected_phase (false :: rest)
      = RadioCall.start_advertising :: connect_wait rest := by
    simp [disconnected_phase]
  have hstart : ∀ l : List Bool,
      (connect_wait l).count RadioCall.start_advertising = 0 := by
    intro l
    induction l with
    | nil => simp [connect_wait]
    | cons c rest2 ih => cases c <;> simp [connect_wait, ih, List.count_cons]
  have hstop : ∀ l : List Bool,
      (connect_wait l).count RadioCall.stop_advertising
        = (if true ∈ l then 1 else 0) := by
    intro l
    induction l with
    | nil => simp [connect_wait]
    | cons c rest2 ih => cases c <;> simp [connect_wait, ih, List.count_cons]
  rw [hphase]
  refine ⟨?_, ?_, rfl⟩
  · rw [List.count_cons]
    simp [hstart rest]
  · rw [List.count_cons]
    simp [hstop rest]

/-- Claim C10 (corrected): the LED auto-off deadline really is set back
to absent when it is consumed, but the debounce deadline never is: once
present, it survives every tick, either kept as a stale value or
overwritten by the next accepted action. -/
theorem deadline_consumption :
    (∀ (cfg : Config) (now : ℚ) (batt : BattSample) (s : RingState) (t : ℚ),
        s.i ≠ cfg.blink_interval * 2 → s.i ≠ cfg.blink_interval →
        s.i % 1000 ≠ 0 → s.LEDOFF_TIME = some t → t < now →
        (housekeeping cfg now batt s).map (fun s1 => s1.LEDOFF_TIME)
          = some none) ∧
    (∀ (cfg : Config) (inp : Inputs) (batt : BattSample) (now : ℚ)
        (s : RingState) (d : ℚ) (r : RingState × List HidEvent × Bool),
        s.DEBOUNCE_TIME = some d → tick cfg inp batt now s = some r →
        ∃ d', r.1.DEBOUNCE_TIME = some d') := by
  constructor
  · intro cfg now batt s t h1 h2 h3 h4 h5
    rw [housekeeping_clear_aux cfg now batt s t h1 h2 h3 h4 h5]
    rfl
  · intro cfg inp batt now s d r hdeb h
    unfold tick at h
    cases hh : housekeeping cfg now batt s with
    | none => rw [hh] at h; exact Option.noConfusion h
    | some s1 =>
      rw [hh] at h
      injection h with h'
      subst h'
      have hpres := (housekeeping_preserves cfg now batt s s1 hh).2
      exact handle_buttons_debounce_some cfg inp now s1 d (by rw [hpres, hdeb])

/-- Claim C10 witness: a concrete expired auto-off deadline is cleared to
absent, and a concrete tick that consumes an expired debounce window
leaves the debounce deadline present. -/
theorem deadline_consumption_witness :
    ((housekeeping defaultConfig 10 battD ⟨some 5, none, 7, 0.2, ledsAllOff⟩).map
        (fun s1 => s1.LEDOFF_TIME) = some none) ∧
    (∃ d', ((⟨none, some 150000010, 8, 0.2, ledsAllOff⟩ : RingState),
        [HidEvent.press MouseBtn.left, HidEvent.release MouseBtn.left],
        false).1.DEBOUNCE_TIME = some d') :=
  ⟨deadline_consumption.1 defaultConfig 10 battD
      ⟨some 5, none, 7, 0.2, ledsAllOff⟩ 5 (by norm_num [defaultConfig])
      (by norm_num [defaultConfig]) (by norm_num) rfl (by norm_num),
   deadline_consumption.2 defaultConfig inpLeft battD 10
      ⟨none, some 5, 7, 0.2, ledsAllOff⟩ 5
      (⟨none, some 150000010, 8, 0.2, ledsAllOff⟩,
        [HidEvent.press MouseBtn.left, HidEvent.release MouseBtn.left], false)
      rfl
      (by norm_num [tick, housekeeping, housekeeping_step, handle_buttons,
            defaultConfig, ledoffDue, debounceSuppressed, get_delay_time, inpLeft])⟩

/-- Claim C10 counterexample: a tick at time 10 with an expired debounce
deadline of 5 and the left button pressed consumes the expired window,
and the stored deadline afterwards is some 150000010, not absent as the
claim requires. -/
theorem debounce_never_cleared_cex :
    (tick defaultConfig inpLeft battD 10 ⟨none, some 5, 7, 0.2, ledsAllOff⟩).map
        (fun r => r.1.DEBOUNCE_TIME) = some (some 150000010) ∧
    (5 : ℚ) ≤ 10 ∧ some (150000010 : ℚ) ≠ none := by
  refine ⟨?_, by norm_num, by simp⟩
  norm_num [tick, housekeeping, housekeeping_step, handle_buttons, defaultConfig,
    ledoffDue, debounceSuppressed, get_delay_time, inpLeft]

end MouseRing
